import Mathlib

/-!
Verification of the smartBCH Ethereum-JSON-RPC facade, a shallow embedding of
`rpc/api/eth_api.go`.  The facade translates `eth_*` RPC calls into calls of an
abstract chain backend (`sbchapi.BackendService`).  Go multi-value returns
`(T, error)` are embedded as `T × Option Err` when the value is meaningful even
on error, and as `Except Err T` when the caller only reads the value on nil
error.  Helper functions of the repository or of external libraries that are
not part of the provided slice (`toCallErr`, `ebp.StatusIsFailure`,
`createGethTxFromSendTxArgs`, `ethutils.SignTx`, `ethutils.EncodeTx`,
`tx.Hash()`, `common.Address.Hex`, the `*ToRpcResp` response shapers) are
abstracted as fields of a context structure `Ctx`; all theorems quantify over
them, so they hold for every implementation of those helpers.  Backend
invocations made by an operation are recorded in an event trace so that
"no backend call is attempted" claims are expressible.
-/

namespace EthApi

/-- Length in bytes of an Ethereum account address (`common.AddressLength`). -/
def AddressLength : Nat := 20

/-- Byte-lexicographic strict comparison on equal-length byte lists, as coded in
the `sort.Slice` comparator of `Accounts`: scan from the most significant byte,
return true at the first position where the left byte is smaller, false at the
first position where it is greater, and false when all bytes agree. -/
def lexLess : List Nat → List Nat → Bool
  | a :: as, b :: bs => if a < b then true else if b < a then false else lexLess as bs
  | _, _ => false

/-- Model of `common.Address`: a 20-byte array. -/
def Address : Type := { l : List Nat // l.length = AddressLength }

instance : DecidableEq Address :=
  fun a b => decidable_of_iff (a.val = b.val) Subtype.ext_iff.symm

/-- Model of the zero value `common.Address\x7b\x7d`. -/
def zeroAddr : Address := ⟨List.replicate AddressLength 0, List.length_replicate _ _⟩

/-- Boolean comparator used by `Accounts` to sort addresses. -/
def addrLess (a b : Address) : Bool := lexLess a.val b.val

/-- Ascending byte-lexicographic order on addresses: `a` precedes (or equals)
`b` when the comparator does not place `b` strictly before `a`. -/
def addrLE (a b : Address) : Prop := addrLess b a = false

instance : DecidableRel addrLE :=
  fun a b => inferInstanceAs (Decidable (addrLess b a = false))

/-- Model of `common.Hash` values; the facade treats hashes opaquely. -/
abbrev Hash : Type := Nat

/-- Model of the zero value `common.Hash\x7b\x7d`. -/
def zeroHash : Hash := 0

/-- Model of `ecdsa.PrivateKey` values; the facade treats keys opaquely. -/
abbrev PrivKey : Type := Nat

/-- Model of the backend transaction type `types.Transaction` (moeingevm);
the facade treats its contents opaquely. -/
structure Tx where
  id : Nat
deriving DecidableEq, Repr

/-- Model of the backend block type `types.Block`: the facade reads its
`Number` and its list of transaction hashes `Transactions`. -/
structure Block where
  number : Int
  transactions : List Hash
deriving DecidableEq, Repr

/-- Model of `gethtypes.Transaction` as built by
`gethtypes.NewTransaction(nonce, to, value, gasLimit, gasPrice, data)`. -/
structure GethTx where
  nonce : Nat
  To : Address
  value : Int
  gasLimit : Nat
  gasPrice : Int
  data : List Nat
deriving DecidableEq

/-- Model of Go `error` values used by the facade.  `accNotFound` and
`blockNotFound` are the distinguished sentinel errors `types.ErrAccNotFound`
and `types.ErrBlockNotFound` compared by identity in the source;
`txNotFound` models a backend transaction-not-found error (the facade never
tests for it); `other` models every other error, e.g. one built by
`errors.New`. -/
inductive Err where
  | accNotFound
  | blockNotFound
  | txNotFound
  | other (msg : String)
deriving DecidableEq, Repr

/-- Model of the RPC response shape `rpctypes.Transaction` produced by the
response shaper `txToRpcResp`; its contents are irrelevant to the claims. -/
structure RpcTx where
  val : Nat
deriving DecidableEq, Repr

/-- Model of the generic RPC response map produced by `blockToRpcResp` and
`txToReceiptRpcResp`; its contents are irrelevant to the claims. -/
structure RpcResp where
  val : Nat
deriving DecidableEq, Repr

/-- Trace event: one invocation of a backend (or submission-path) operation. -/
inductive BEvent where
  | getNonce (addr : Address)
  | chainId
  | sendRawTx (data : List Nat)
  | getTransaction (h : Hash)
  | call (tx : GethTx) (sender : Address)
  | estimateGas (tx : GethTx) (sender : Address)
deriving DecidableEq

/-- Model of the backend collaborator `sbchapi.BackendService`, restricted to
the operations the facade invokes.  `GetTransaction` returns four values and
an error in Go; the facade discards all but the transaction and the error, so
only those are modelled.  `getCode` and `sendRawTx` keep the Go pair shape
because the facade reads their value component even alongside the error. -/
structure Backend where
  latestHeight : Int
  chainId : Nat
  getBalance : Address → Int → Except Err Int
  getCode : Address → Int → List Nat × Option Err
  currentBlock : Except Err Block
  blockByNumber : Int → Except Err Block
  blockByHash : Hash → Except Err Block
  getTxListByHeight : Nat → Except Err (List Tx)
  getTransaction : Hash → Except Err Tx
  getNonce : Address → Except Err Nat
  sendRawTx : List Nat → Hash × Option Err
  call : GethTx → Address → Nat × List Nat
  estimateGas : GethTx → Address → Nat × List Nat × Nat

/-- Model of the `ethAPI` value: the backend plus the signer registry
(`accounts`, a map from address to private key, embedded as an association
list whose order stands for the map iteration order). -/
structure EthAPI where
  backend : Backend
  accounts : List (Address × PrivKey)

/-- Model of `rpctypes.CallArgs`: a partial transaction for `eth_call` and
`eth_estimateGas`; every field is optional. -/
structure CallArgs where
  From : Option Address
  To : Option Address
  Gas : Option Nat
  GasPrice : Option Int
  Value : Option Int
  Data : Option (List Nat)
deriving DecidableEq

/-- Model of `rpctypes.SendTxArgs`: a partial transaction for
`eth_sendTransaction`; the sender address is required. -/
structure SendTxArgs where
  From : Address
  To : Option Address
  Gas : Option Nat
  GasPrice : Option Int
  Value : Option Int
  Data : Option (List Nat)
  Nonce : Option Nat
deriving DecidableEq

/-- Context of helper functions referenced by `eth_api.go` but defined outside
the provided slice (other repository files or external libraries); every
theorem quantifies over an arbitrary context. -/
structure Ctx where
  statusIsFailure : Nat → Bool
  toCallErr : Nat → List Nat → Err
  createGethTxFromSendTxArgs : SendTxArgs → Except Err GethTx
  signTx : GethTx → Nat → PrivKey → Except Err GethTx
  encodeTx : GethTx → Except Err (List Nat)
  txHash : GethTx → Hash
  hexAddr : Address → String
  txToRpcResp : Tx → RpcTx
  txToReceiptRpcResp : Tx → RpcResp
  blockToRpcResp : Block → List Tx → RpcResp

/-- Default gas price for evm transactions (`DefaultGasPrice`). -/
def DefaultGasPrice : Int := 20000000000

/-- Default gas limit for RPC call operations (`DefaultRPCGasLimit`). -/
def DefaultRPCGasLimit : Nat := 10000000

/-- Value of the geth sentinel `gethrpc.LatestBlockNumber` used by the facade
where it ignores the height argument. -/
def LatestBlockNumber : Int := -1

/-- Lookup in the signer registry map `api.accounts[addr]`, embedded over the
association list (map keys are distinct). -/
def findKey (accs : List (Address × PrivKey)) (addr : Address) : Option PrivKey :=
  match accs with
  | [] => none
  | (a, k) :: rest => if a = addr then some k else findKey rest addr

/-- Sorting step of `Accounts`: Go `sort.Slice` with the byte-lexicographic
comparator.  Since distinct addresses never compare equivalent under the
comparator, every correct sort produces the same (unique) sorted permutation;
it is embedded as insertion sort with respect to `addrLE`. -/
def sortAddrs (l : List Address) : List Address :=
  List.insertionSort addrLE l

/-- Embedding of `ethAPI.Accounts`: collect the registry keys in map iteration
order, sort them byte-lexicographically, return them with nil error. -/
def Accounts (api : EthAPI) : Except Err (List Address) :=
  Except.ok (sortAddrs (api.accounts.map Prod.fst))

/-- Embedding of `ethAPI.BlockNumber`. -/
def BlockNumber (api : EthAPI) : Except Err Int :=
  Except.ok api.backend.latestHeight

/-- Embedding of `ethAPI.GasPrice`: returns the constant big integer zero. -/
def GasPrice (_ : EthAPI) : Int := 0

/-- Embedding of `ethAPI.GetBalance`: the height argument is ignored and the
latest-block sentinel is passed to the backend; the distinguished error
`types.ErrAccNotFound` is mapped to a zero balance with nil error, any other
backend error is returned; the result value is `Option` because the Go
function returns a `*hexutil.Big` that is nil on the error path. -/
def GetBalance (api : EthAPI) (addr : Address) (_blockNum : Int) :
    Option Int × Option Err :=
  match api.backend.getBalance addr LatestBlockNumber with
  | Except.error e =>
    if e = Err.accNotFound then (some 0, none) else (none, some e)
  | Except.ok b => (some b, none)

/-- Embedding of `ethAPI.GetCode`: the height argument is ignored, the backend
error component is discarded (`code, _ :=`) and the code is returned with nil
error. -/
def GetCode (api : EthAPI) (addr : Address) (_blockNum : Int) :
    List Nat × Option Err :=
  let r := api.backend.getCode addr LatestBlockNumber
  (r.fst, none)

/-- Embedding of `ethAPI.getBlockByNum`: a non-positive height resolves to the
backend current block, a positive height is looked up exactly. -/
def getBlockByNum (api : EthAPI) (blockNum : Int) : Except Err Block :=
  if blockNum ≤ 0 then api.backend.currentBlock
  else api.backend.blockByNumber blockNum

/-- Embedding of `ethAPI.GetBlockByNumber`: resolve the block via
`getBlockByNum`, map `types.ErrBlockNotFound` to a null result, propagate any
other error; on `fullTx` fetch the transaction list for the block height
(cast to uint32) and fail wholly if that fetch fails; shape the result via
`blockToRpcResp`. -/
def GetBlockByNumber (ctx : Ctx) (api : EthAPI) (blockNum : Int)
    (fullTx : Bool) : Option RpcResp × Option Err :=
  match getBlockByNum api blockNum with
  | Except.error e =>
    if e = Err.blockNotFound then (none, none) else (none, some e)
  | Except.ok block =>
    if fullTx then
      match api.backend.getTxListByHeight ((block.number % (2 ^ 32)).toNat) with
      | Except.error e => (none, some e)
      | Except.ok txs => (some (ctx.blockToRpcResp block txs), none)
    else (some (ctx.blockToRpcResp block []), none)

/-- Embedding of `ethAPI.getTxByIdx`: an index at or beyond the transaction
count of the block yields a null result with nil error and performs no backend
fetch; otherwise the transaction hash at the index is fetched from the backend
and shaped via `txToRpcResp`. -/
def getTxByIdx (ctx : Ctx) (api : EthAPI) (block : Block) (idx : Nat) :
    (Option RpcTx × Option Err) × List BEvent :=
  if h : block.transactions.length ≤ idx then ((none, none), [])
  else
    let txHash := block.transactions[idx]
    match api.backend.getTransaction txHash with
    | Except.error e => ((none, some e), [BEvent.getTransaction txHash])
    | Except.ok tx =>
      ((some (ctx.txToRpcResp tx), none), [BEvent.getTransaction txHash])

/-- Embedding of `ethAPI.GetTransactionByBlockNumberAndIndex`: resolve the
block by number (propagating the error), then defer to `getTxByIdx`. -/
def GetTransactionByBlockNumberAndIndex (ctx : Ctx) (api : EthAPI)
    (blockNum : Int) (idx : Nat) : (Option RpcTx × Option Err) × List BEvent :=
  match getBlockByNum api blockNum with
  | Except.error e => ((none, some e), [])
  | Except.ok block => getTxByIdx ctx api block idx

/-- Embedding of `ethAPI.GetTransactionByBlockHashAndIndex`: resolve the block
by hash (propagating the error), then defer to `getTxByIdx`. -/
def GetTransactionByBlockHashAndIndex (ctx : Ctx) (api : EthAPI)
    (h : Hash) (idx : Nat) : (Option RpcTx × Option Err) × List BEvent :=
  match api.backend.blockByHash h with
  | Except.error e => ((none, some e), [])
  | Except.ok block => getTxByIdx ctx api block idx

/-- Embedding of `ethAPI.GetTransactionByHash`: every backend failure of
`GetTransaction` (the ignored extra return values are not modelled) yields a
null result with nil error; on success the transaction is shaped via
`txToRpcResp`. -/
def GetTransactionByHash (ctx : Ctx) (api : EthAPI) (h : Hash) :
    Option RpcTx × Option Err :=
  match api.backend.getTransaction h with
  | Except.error _ => (none, none)
  | Except.ok tx => (some (ctx.txToRpcResp tx), none)

/-- Embedding of `ethAPI.GetTransactionReceipt`: every backend failure of
`GetTransaction` yields a null result with nil error; on success the receipt
is shaped via `txToReceiptRpcResp`. -/
def GetTransactionReceipt (ctx : Ctx) (api : EthAPI) (h : Hash) :
    Option RpcResp × Option Err :=
  match api.backend.getTransaction h with
  | Except.error _ => (none, none)
  | Except.ok tx => (some (ctx.txToReceiptRpcResp tx), none)

/-- Embedding of `ethAPI.createGethTxFromCallArgs`: default the sender and
recipient to the zero address, the value to zero, the gas limit to
`DefaultRPCGasLimit`, the gas price to `DefaultGasPrice` and the payload to
empty bytes; build a geth transaction with nonce 0 and return it together with
the sender and a nil error. -/
def createGethTxFromCallArgs (args : CallArgs) :
    GethTx × Address × Option Err :=
  let sender := args.From.getD zeroAddr
  let toAddr := args.To.getD zeroAddr
  let val := args.Value.getD 0
  let gasLimit := args.Gas.getD DefaultRPCGasLimit
  let gasPrice := args.GasPrice.getD DefaultGasPrice
  let data := args.Data.getD []
  ({ nonce := 0, To := toAddr, value := val, gasLimit := gasLimit,
     gasPrice := gasPrice, data := data }, sender, none)

/-- Embedding of `ethAPI.Call`: build the transaction from the call args
(propagating a build error with an empty byte result), invoke the backend
`Call`, return the return data on a non-failure status and the mapped call
error on a failure status. -/
def Call (ctx : Ctx) (api : EthAPI) (args : CallArgs) (_blockNr : Int) :
    Except Err (List Nat) × List BEvent :=
  match createGethTxFromCallArgs args with
  | (tx, sender, e) =>
    match e with
    | some err => (Except.error err, [])
    | none =>
      let r := api.backend.call tx sender
      if !(ctx.statusIsFailure r.fst) then
        (Except.ok r.snd, [BEvent.call tx sender])
      else
        (Except.error (ctx.toCallErr r.fst r.snd), [BEvent.call tx sender])

/-- Embedding of `ethAPI.EstimateGas`: build the transaction from the call
args (propagating a build error with a zero gas result), invoke the backend
`EstimateGas`, return the gas amount on a non-failure status and the mapped
call error on a failure status. -/
def EstimateGas (ctx : Ctx) (api : EthAPI) (args : CallArgs) :
    Except Err Nat × List BEvent :=
  match createGethTxFromCallArgs args with
  | (tx, sender, e) =>
    match e with
    | some err => (Except.error err, [])
    | none =>
      let r := api.backend.estimateGas tx sender
      if !(ctx.statusIsFailure r.fst) then
        (Except.ok r.snd.snd, [BEvent.estimateGas tx sender])
      else
        (Except.error (ctx.toCallErr r.fst r.snd.fst),
         [BEvent.estimateGas tx sender])

/-- Embedding of `ethAPI.SendTransaction`: reject a sender absent from the
signer registry with an unknown-account error before any backend call; when
the nonce is absent, fetch it from the backend and default it only if that
fetch succeeds (a fetch failure is ignored and the nonce stays absent); build
the unsigned transaction, sign it with the backend chain id, encode it, submit
it, and return the locally computed hash of the signed transaction. -/
def SendTransaction (ctx : Ctx) (api : EthAPI) (args : SendTxArgs) :
    (Hash × Option Err) × List BEvent :=
  match findKey api.accounts args.From with
  | none =>
    ((zeroHash,
      some (Err.other ("unknown account: " ++ ctx.hexAddr args.From))), [])
  | some privKey =>
    let nonceStep : SendTxArgs × List BEvent :=
      match args.Nonce with
      | none =>
        match api.backend.getNonce args.From with
        | Except.ok nonce =>
          ({ args with Nonce := some nonce }, [BEvent.getNonce args.From])
        | Except.error _ => (args, [BEvent.getNonce args.From])
      | some _ => (args, [])
    match nonceStep with
    | (args2, ev1) =>
      match ctx.createGethTxFromSendTxArgs args2 with
      | Except.error e => ((zeroHash, some e), ev1)
      | Except.ok tx =>
        let chainID := api.backend.chainId
        let ev2 := ev1 ++ [BEvent.chainId]
        match ctx.signTx tx chainID privKey with
        | Except.error e => ((zeroHash, some e), ev2)
        | Except.ok signedTx =>
          match ctx.encodeTx signedTx with
          | Except.error e => ((zeroHash, some e), ev2)
          | Except.ok txBytes =>
            match api.backend.sendRawTx txBytes with
            | (tmTxHash, someErr) =>
              let ev3 := ev2 ++ [BEvent.sendRawTx txBytes]
              match someErr with
              | some e => ((tmTxHash, some e), ev3)
              | none => ((ctx.txHash signedTx, none), ev3)

/-- Concrete address 0x00...00 used by witnesses. -/
def addrA : Address := zeroAddr

/-- Concrete address 0x01 00...00 used by witnesses. -/
def addrB : Address := ⟨1 :: List.replicate 19 0, rfl⟩

/-- Concrete helper context used by witnesses: every abstract helper is given
a simple computable implementation. -/
def ctxW : Ctx where
  statusIsFailure := fun s => s != 0
  toCallErr := fun s _ => Err.other (toString s)
  createGethTxFromSendTxArgs := fun args =>
    Except.ok { nonce := args.Nonce.getD 0, To := args.To.getD zeroAddr,
                value := args.Value.getD 0, gasLimit := args.Gas.getD 0,
                gasPrice := args.GasPrice.getD 0, data := args.Data.getD [] }
  signTx := fun tx _ _ => Except.ok tx
  encodeTx := fun tx => Except.ok tx.data
  txHash := fun tx => tx.nonce + 100
  hexAddr := fun _ => "0x0100000000000000000000000000000000000000"
  txToRpcResp := fun t => ⟨t.id⟩
  txToReceiptRpcResp := fun t => ⟨t.id⟩
  blockToRpcResp := fun b _ => ⟨b.number.toNat⟩

/-- Concrete backend where every operation succeeds, used by witnesses. -/
def backendW : Backend where
  latestHeight := 7
  chainId := 10000
  getBalance := fun _ _ => Except.ok 5
  getCode := fun _ _ => ([1, 2], none)
  currentBlock := Except.ok { number := 7, transactions := [11, 22] }
  blockByNumber := fun n => Except.ok { number := n, transactions := [33] }
  blockByHash := fun _ => Except.ok { number := 7, transactions := [11, 22] }
  getTxListByHeight := fun _ => Except.ok []
  getTransaction := fun h => Except.ok { id := h }
  getNonce := fun _ => Except.ok 3
  sendRawTx := fun d => (d.length, none)
  call := fun _ _ => (0, [9])
  estimateGas := fun _ _ => (0, [], 21000)

/-- Concrete API value with one registered test key, used by witnesses. -/
def apiW : EthAPI where
  backend := backendW
  accounts := [(addrB, 42)]

/-- Concrete API value with an empty signer registry. -/
def apiEmpty : EthAPI where
  backend := backendW
  accounts := []

/-- Concrete API whose backend fails every transaction lookup with a generic
(non-not-found) error. -/
def apiTxErr : EthAPI where
  backend := { backendW with
    getTransaction := fun _ => Except.error (Err.other "io error") }
  accounts := []

/-- Concrete API whose backend fails every code lookup. -/
def apiCodeErr : EthAPI where
  backend := { backendW with
    getCode := fun _ _ => ([1, 2], some (Err.other "boom")) }
  accounts := []

/-- Concrete API whose backend fails every nonce fetch. -/
def apiNonceErr : EthAPI where
  backend := { backendW with
    getNonce := fun _ => Except.error (Err.other "down") }
  accounts := [(addrB, 42)]

/-- Concrete API whose backend reports the account-not-found error on every
balance query. -/
def apiBalNF : EthAPI where
  backend := { backendW with
    getBalance := fun _ _ => Except.error Err.accNotFound }
  accounts := []

/-- Concrete API whose backend fails every balance query with a generic
error. -/
def apiBalErr : EthAPI where
  backend := { backendW with
    getBalance := fun _ _ => Except.error (Err.other "db down") }
  accounts := []

/-- Concrete call args with every field absent. -/
def argsW : CallArgs where
  From := none
  To := none
  Gas := none
  GasPrice := none
  Value := none
  Data := none

/-- Concrete send args from `addrB` with every optional field absent. -/
def argsSendW : SendTxArgs where
  From := addrB
  To := none
  Gas := none
  GasPrice := none
  Value := none
  Data := none
  Nonce := none

/-- Transaction built by `ctxW.createGethTxFromSendTxArgs` on `argsSendW`. -/
def txW : GethTx where
  nonce := 0
  To := zeroAddr
  value := 0
  gasLimit := 0
  gasPrice := 0
  data := []

/-- Two concrete registries holding the same two keys in opposite iteration
orders, used by the account-sorting witness. -/
def api9a : EthAPI where
  backend := backendW
  accounts := [(addrA, 1), (addrB, 2)]

/-- Reversed-iteration-order variant of `api9a`. -/
def api9b : EthAPI where
  backend := backendW
  accounts := [(addrB, 2), (addrA, 1)]

theorem lexLess_asymm : ∀ as bs : List Nat,
    lexLess as bs = true → lexLess bs as = false := by
  intro as
  induction as with
  | nil => intro bs h; cases bs <;> simp [lexLess] at h
  | cons a as ih =>
    intro bs h
    cases bs with
    | nil => simp [lexLess] at h
    | cons b bs =>
      by_cases h1 : a < b
      · have h2 : ¬ b < a := lt_asymm h1
        simp [lexLess, h1, h2]
      · by_cases h2 : b < a
        · simp [lexLess, h1, h2] at h
        · simp only [lexLess, if_neg h1, if_neg h2] at h
          simp [lexLess, if_neg h1, if_neg h2, ih bs h]

theorem lexLess_antisymm : ∀ as bs : List Nat, as.length = bs.length →
    lexLess as bs = false → lexLess bs as = false → as = bs := by
  intro as
  induction as with
  | nil =>
    intro bs hlen _ _
    cases bs with
    | nil => rfl
    | cons b bs => simp at hlen
  | cons a as ih =>
    intro bs hlen h1 h2
    cases bs with
    | nil => simp at hlen
    | cons b bs =>
      by_cases hab : a < b
      · simp [lexLess, hab] at h1
      · by_cases hba : b < a
        · simp [lexLess, hba, lt_asymm hba] at h2
        · have heq : a = b := by omega
          subst heq
          have h1x : lexLess as bs = false := by
            simpa [lexLess, hab, hba] using h1
          have h2x : lexLess bs as = false := by
            simpa [lexLess, hab, hba] using h2
          have hlenx : as.length = bs.length := by simpa using hlen
          rw [ih bs hlenx h1x h2x]

theorem lexLess_trans : ∀ as bs cs : List Nat, lexLess as bs = true →
    lexLess bs cs = true → lexLess as cs = true := by
  intro as
  induction as with
  | nil =>
    intro bs cs h1 h2
    cases bs <;> simp [lexLess] at h1
  | cons a as ih =>
    intro bs cs h1 h2
    cases bs with
    | nil => simp [lexLess] at h1
    | cons b bs =>
      cases cs with
      | nil => simp [lexLess] at h2
      | cons c cs =>
        by_cases hab : a < b
        · by_cases hbc : b < c
          · simp [lexLess, lt_trans hab hbc]
          · by_cases hcb : c < b
            · simp [lexLess, hbc, hcb] at h2
            · have heq : b = c := by omega
              subst heq
              simp [lexLess, hab]
        · by_cases hba : b < a
          · simp [lexLess, hab, hba] at h1
          · have heq : a = b := by omega
            subst heq
            by_cases hbc : a < c
            · simp [lexLess, hbc]
            · by_cases hcb : c < a
              · simp [lexLess, hbc, hcb] at h2
              · have heq2 : a = c := by omega
                subst heq2
                have h1x : lexLess as bs = true := by
                  simpa [lexLess, hab, hba] using h1
                have h2x : lexLess bs cs = true := by
                  simpa [lexLess, hbc, hcb] using h2
                simp [lexLess, hab, hba, ih bs cs h1x h2x]

theorem addrLess_antisymm (a b : Address) (h1 : addrLess a b = false)
    (h2 : addrLess b a = false) : a = b := by
  apply Subtype.ext
  exact lexLess_antisymm a.val b.val (a.property.trans b.property.symm) h1 h2

instance : IsTotal Address addrLE := by
  constructor
  intro a b
  cases h : addrLess a b with
  | false => exact Or.inr h
  | true => exact Or.inl (lexLess_asymm a.val b.val h)

instance : IsTrans Address addrLE := by
  constructor
  intro a b c h1 h2
  unfold addrLE addrLess at h1 h2 ⊢
  cases hca : lexLess c.val a.val with
  | false => rfl
  | true =>
    exfalso
    cases hab : lexLess a.val b.val with
    | true =>
      cases hbc : lexLess b.val c.val with
      | true =>
        have := lexLess_trans a.val b.val c.val hab hbc
        have := lexLess_asymm a.val c.val this
        rw [this] at hca
        exact Bool.false_ne_true hca
      | false =>
        have heq : b = c :=
          addrLess_antisymm b c hbc h2
        rw [heq] at hab
        rw [lexLess_asymm c.val a.val hca] at hab
        exact Bool.false_ne_true hab
    | false =>
      have heq : b = a :=
        addrLess_antisymm b a h1 hab
      rw [← heq] at hca
      rw [h2] at hca
      exact Bool.false_ne_true hca

instance : IsAntisymm Address addrLE := by
  constructor
  intro a b h1 h2
  exact (addrLess_antisymm b a h1 h2).symm

/-- C1 counterexample: on call args with an absent gas price, the gas price
reported by `GasPrice` (zero) differs from the gas price the call builder
substitutes (`DefaultGasPrice` = 20000000000), refuting the claim that the
two constants agree. -/
theorem C1_counterexample :
    argsW.GasPrice = none ∧
    GasPrice apiW ≠ (createGethTxFromCallArgs argsW).fst.gasPrice := by
  exact ⟨rfl, by decide⟩

/-- C1 (amended): for every registry and backend `GasPrice` returns the
constant zero, while `createGethTxFromCallArgs` substitutes the distinct
constant `DefaultGasPrice` when `CallArgs.GasPrice` is absent; the reported
price and the consumed default are two different fixed constants. -/
theorem C1_gasPrice_flat (api : EthAPI) (args : CallArgs)
    (h : args.GasPrice = none) :
    GasPrice api = 0 ∧
    (createGethTxFromCallArgs args).fst.gasPrice = DefaultGasPrice := by
  constructor
  · rfl
  · simp [createGethTxFromCallArgs, h]

/-- Witness for `C1_gasPrice_flat` at the concrete empty call args. -/
theorem C1_gasPrice_flat_witness :
    GasPrice apiW = 0 ∧
    (createGethTxFromCallArgs argsW).fst.gasPrice = DefaultGasPrice :=
  C1_gasPrice_flat apiW argsW rfl

/-- C2 counterexample: a backend failure of `GetTransaction` that is not a
transaction-not-found error still yields a null result with nil error from
both `eth_getTransactionByHash` and `eth_getTransactionReceipt`, refuting the
claim that other backend failures propagate as RPC errors. -/
theorem C2_counterexample :
    apiTxErr.backend.getTransaction 5 = Except.error (Err.other "io error") ∧
    Err.other "io error" ≠ Err.txNotFound ∧
    GetTransactionByHash ctxW apiTxErr 5 = (none, none) ∧
    GetTransactionReceipt ctxW apiTxErr 5 = (none, none) :=
  ⟨rfl, by decide, rfl, rfl⟩

/-- C2 (amended): for `eth_getTransactionByHash` and
`eth_getTransactionReceipt`, every backend failure of `GetTransaction` -
whether transaction-not-found or any other error - yields a null result with
no error; no backend failure of this lookup is surfaced as an RPC error. -/
theorem C2_txlookup_null_on_error (ctx : Ctx) (api : EthAPI) (h : Hash)
    (e : Err) (hf : api.backend.getTransaction h = Except.error e) :
    GetTransactionByHash ctx api h = (none, none) ∧
    GetTransactionReceipt ctx api h = (none, none) := by
  constructor
  · simp [GetTransactionByHash, hf]
  · simp [GetTransactionReceipt, hf]

/-- Witness for `C2_txlookup_null_on_error` at a concrete failing backend. -/
theorem C2_txlookup_null_on_error_witness :
    GetTransactionByHash ctxW apiTxErr 5 = (none, none) ∧
    GetTransactionReceipt ctxW apiTxErr 5 = (none, none) :=
  C2_txlookup_null_on_error ctxW apiTxErr 5 (Err.other "io error") rfl

/-- C3 counterexample: the backend code lookup fails, yet `eth_getCode`
returns the fetched bytes with nil error, discarding the backend error -
refuting the claim that `eth_getCode` surfaces backend errors. -/
theorem C3_counterexample :
    apiCodeErr.backend.getCode addrA LatestBlockNumber
      = ([1, 2], some (Err.other "boom")) ∧
    GetCode apiCodeErr addrA 0 = ([1, 2], none) :=
  ⟨rfl, rfl⟩

/-- C3 (amended): the facade does silently discard some backend errors:
`eth_getCode` always returns a nil error, whatever the backend error
component was, and `eth_sendTransaction` ignores a failure of the backend
nonce fetch - it proceeds with the nonce left absent and completes the
submission. -/
theorem C3_error_discards (ctx : Ctx) (api : EthAPI) (addr : Address)
    (blockNum : Int) (args : SendTxArgs) (k : PrivKey) (e : Err)
    (tx tx2 : GethTx) (bs : List Nat) (hsh : Hash)
    (hk : findKey api.accounts args.From = some k)
    (hn : args.Nonce = none)
    (hge : api.backend.getNonce args.From = Except.error e)
    (hc : ctx.createGethTxFromSendTxArgs args = Except.ok tx)
    (hs : ctx.signTx tx api.backend.chainId k = Except.ok tx2)
    (hen : ctx.encodeTx tx2 = Except.ok bs)
    (hsend : api.backend.sendRawTx bs = (hsh, none)) :
    (GetCode api addr blockNum).snd = none ∧
    SendTransaction ctx api args =
      ((ctx.txHash tx2, none),
       [BEvent.getNonce args.From, BEvent.chainId, BEvent.sendRawTx bs]) := by
  constructor
  · rfl
  · simp [SendTransaction, hk, hn, hge, hc, hs, hen, hsend]

/-- Witness for `C3_error_discards`: a registered sender, an absent nonce and
a failing nonce fetch; the submission still goes through. -/
theorem C3_error_discards_witness :
    (GetCode apiNonceErr addrA 0).snd = none ∧
    SendTransaction ctxW apiNonceErr argsSendW =
      ((ctxW.txHash txW, none),
       [BEvent.getNonce addrB, BEvent.chainId, BEvent.sendRawTx []]) :=
  C3_error_discards ctxW apiNonceErr addrA 0 argsSendW 42 (Err.other "down")
    txW txW [] 0 rfl rfl rfl rfl rfl rfl rfl

/-- C4: for every backend, context, and call args, `eth_call` returns exactly
the backend return data with no error when the status code is classified as
non-failure and the mapped call error (built from the status code and return
data) with no success value when it is classified as failure; likewise
`eth_estimateGas` with the reported gas amount.  Each performs exactly one
backend execution with the built transaction. -/
theorem C4_call_estimate_status (ctx : Ctx) (api : EthAPI) (args : CallArgs)
    (blockNr : Int) :
    Call ctx api args blockNr =
      (let tx := (createGethTxFromCallArgs args).fst
       let sender := (createGethTxFromCallArgs args).snd.fst
       let r := api.backend.call tx sender
       ((if ctx.statusIsFailure r.fst then
           Except.error (ctx.toCallErr r.fst r.snd)
         else Except.ok r.snd),
        [BEvent.call tx sender])) ∧
    EstimateGas ctx api args =
      (let tx := (createGethTxFromCallArgs args).fst
       let sender := (createGethTxFromCallArgs args).snd.fst
       let r := api.backend.estimateGas tx sender
       ((if ctx.statusIsFailure r.fst then
           Except.error (ctx.toCallErr r.fst r.snd.fst)
         else Except.ok r.snd.snd),
        [BEvent.estimateGas tx sender])) := by
  constructor
  · simp only [Call, createGethTxFromCallArgs]
    cases hb : ctx.statusIsFailure
        (api.backend.call (createGethTxFromCallArgs args).fst
          (createGethTxFromCallArgs args).snd.fst).fst <;>
      simp_all [createGethTxFromCallArgs]
  · simp only [EstimateGas, createGethTxFromCallArgs]
    cases hb : ctx.statusIsFailure
        (api.backend.estimateGas (createGethTxFromCallArgs args).fst
          (createGethTxFromCallArgs args).snd.fst).fst <;>
      simp_all [createGethTxFromCallArgs]

/-- C5: when gas, gas price and value are all absent from the call args, the
transaction `eth_estimateGas` hands to the backend carries the default gas
ceiling `DefaultRPCGasLimit`, the default flat price `DefaultGasPrice` and a
zero value, and the backend is invoked exactly once with that transaction. -/
theorem C5_estimate_defaults (ctx : Ctx) (api : EthAPI) (args : CallArgs)
    (hg : args.Gas = none) (hp : args.GasPrice = none)
    (hv : args.Value = none) :
    (createGethTxFromCallArgs args).fst.gasLimit = DefaultRPCGasLimit ∧
    (createGethTxFromCallArgs args).fst.gasPrice = DefaultGasPrice ∧
    (createGethTxFromCallArgs args).fst.value = 0 ∧
    (EstimateGas ctx api args).snd =
      [BEvent.estimateGas (createGethTxFromCallArgs args).fst
        (createGethTxFromCallArgs args).snd.fst] := by
  refine ⟨by simp [createGethTxFromCallArgs, hg],
    by simp [createGethTxFromCallArgs, hp],
    by simp [createGethTxFromCallArgs, hv], ?_⟩
  simp only [EstimateGas, createGethTxFromCallArgs]
  split <;> rfl

/-- Witness for `C5_estimate_defaults` at the concrete empty call args. -/
theorem C5_estimate_defaults_witness :
    (createGethTxFromCallArgs argsW).fst.gasLimit = DefaultRPCGasLimit ∧
    (createGethTxFromCallArgs argsW).fst.gasPrice = DefaultGasPrice ∧
    (createGethTxFromCallArgs argsW).fst.value = 0 ∧
    (EstimateGas ctxW apiW argsW).snd =
      [BEvent.estimateGas (createGethTxFromCallArgs argsW).fst
        (createGethTxFromCallArgs argsW).snd.fst] :=
  C5_estimate_defaults ctxW apiW argsW rfl rfl rfl

/-- C6: when the sender of `eth_sendTransaction` is not in the signer
registry, the result is the zero hash together with an error whose message is
"unknown account: " followed by the hex form of the sender address, and the
empty trace shows that no backend call of any kind was attempted. -/
theorem C6_unknown_account (ctx : Ctx) (api : EthAPI) (args : SendTxArgs)
    (h : findKey api.accounts args.From = none) :
    SendTransaction ctx api args =
      ((zeroHash,
        some (Err.other ("unknown account: " ++ ctx.hexAddr args.From))),
       []) := by
  simp [SendTransaction, h]

/-- Witness for `C6_unknown_account` at the empty signer registry. -/
theorem C6_unknown_account_witness :
    SendTransaction ctxW apiEmpty argsSendW =
      ((zeroHash,
        some (Err.other ("unknown account: " ++ ctxW.hexAddr addrB))),
       []) :=
  C6_unknown_account ctxW apiEmpty argsSendW rfl

/-- C7: every block number at most zero (which covers the latest, pending and
earliest sentinels, all non-positive) resolves to the backend current block;
every strictly positive number is looked up exactly at that height; hence
`eth_getBlockByNumber` answers identically for any two non-positive
numbers. -/
theorem C7_block_resolution (api : EthAPI) :
    (∀ bn : Int, bn ≤ 0 → getBlockByNum api bn = api.backend.currentBlock) ∧
    (∀ bn : Int, 0 < bn →
      getBlockByNum api bn = api.backend.blockByNumber bn) ∧
    (∀ (ctx : Ctx) (fullTx : Bool) (bn bn2 : Int), bn ≤ 0 → bn2 ≤ 0 →
      GetBlockByNumber ctx api bn fullTx
        = GetBlockByNumber ctx api bn2 fullTx) := by
  have hle : ∀ bn : Int, bn ≤ 0 →
      getBlockByNum api bn = api.backend.currentBlock := by
    intro bn h
    simp [getBlockByNum, h]
  refine ⟨hle, ?_, ?_⟩
  · intro bn h
    simp [getBlockByNum, not_le.mpr h]
  · intro ctx fullTx bn bn2 h1 h2
    unfold GetBlockByNumber
    rw [hle bn h1, hle bn2 h2]

/-- Witness for `C7_block_resolution` at concrete heights -1, 5, -2, 0. -/
theorem C7_block_resolution_witness :
    getBlockByNum apiW (-1) = apiW.backend.currentBlock ∧
    getBlockByNum apiW 5 = apiW.backend.blockByNumber 5 ∧
    GetBlockByNumber ctxW apiW (-2) false = GetBlockByNumber ctxW apiW 0 false :=
  ⟨(C7_block_resolution apiW).1 (-1) (by decide),
   (C7_block_resolution apiW).2.1 5 (by decide),
   (C7_block_resolution apiW).2.2 ctxW false (-2) 0 (by decide) (by decide)⟩

/-- C8: an index at or beyond the transaction count of the block makes
`getTxByIdx` return a null result with nil error and an empty trace (no
backend transaction fetch); consequently both
`eth_getTransactionByBlockNumberAndIndex` and the hash-indexed variant return
null with no error and perform no transaction fetch whenever the block
resolves to such a block. -/
theorem C8_index_out_of_bounds (ctx : Ctx) (api : EthAPI) (block : Block)
    (idx : Nat) (h : block.transactions.length ≤ idx) :
    getTxByIdx ctx api block idx = ((none, none), []) ∧
    (∀ bn : Int, getBlockByNum api bn = Except.ok block →
      GetTransactionByBlockNumberAndIndex ctx api bn idx
        = ((none, none), [])) ∧
    (∀ hs : Hash, api.backend.blockByHash hs = Except.ok block →
      GetTransactionByBlockHashAndIndex ctx api hs idx
        = ((none, none), [])) := by
  have hmain : getTxByIdx ctx api block idx = ((none, none), []) := by
    unfold getTxByIdx
    rw [dif_pos h]
  refine ⟨hmain, ?_, ?_⟩
  · intro bn hb
    unfold GetTransactionByBlockNumberAndIndex
    rw [hb]
    exact hmain
  · intro hs hb
    unfold GetTransactionByBlockHashAndIndex
    rw [hb]
    exact hmain

/-- Witness for `C8_index_out_of_bounds`: a two-transaction block queried at
index 2, reached by number and by hash. -/
theorem C8_index_out_of_bounds_witness :
    getTxByIdx ctxW apiW { number := 7, transactions := [11, 22] } 2
      = ((none, none), []) ∧
    GetTransactionByBlockNumberAndIndex ctxW apiW (-1) 2
      = ((none, none), []) ∧
    GetTransactionByBlockHashAndIndex ctxW apiW 0 2 = ((none, none), []) :=
  ⟨(C8_index_out_of_bounds ctxW apiW
      { number := 7, transactions := [11, 22] } 2 (by decide)).1,
   (C8_index_out_of_bounds ctxW apiW
      { number := 7, transactions := [11, 22] } 2 (by decide)).2.1 (-1) rfl,
   (C8_index_out_of_bounds ctxW apiW
      { number := 7, transactions := [11, 22] } 2 (by decide)).2.2 0 rfl⟩

/-- C9: `eth_accounts` returns the registry addresses sorted ascending in
byte-lexicographic order (a permutation of the registry keys), and two
invocations over registries holding the same keys in any iteration order
return identical lists. -/
theorem C9_accounts_sorted (api1 api2 : EthAPI)
    (h : (api1.accounts.map Prod.fst).Perm (api2.accounts.map Prod.fst)) :
    Accounts api1 = Except.ok (sortAddrs (api1.accounts.map Prod.fst)) ∧
    List.Sorted addrLE (sortAddrs (api1.accounts.map Prod.fst)) ∧
    (sortAddrs (api1.accounts.map Prod.fst)).Perm
      (api1.accounts.map Prod.fst) ∧
    Accounts api1 = Accounts api2 := by
  refine ⟨rfl, List.sorted_insertionSort addrLE _,
    List.perm_insertionSort addrLE _, ?_⟩
  unfold Accounts
  congr 1
  unfold sortAddrs
  exact List.eq_of_perm_of_sorted
    ((List.perm_insertionSort addrLE _).trans
      (h.trans (List.perm_insertionSort addrLE _).symm))
    (List.sorted_insertionSort addrLE _)
    (List.sorted_insertionSort addrLE _)

/-- Witness for `C9_accounts_sorted`: the same two keys in the two opposite
iteration orders. -/
theorem C9_accounts_sorted_witness :
    Accounts api9a = Except.ok (sortAddrs (api9a.accounts.map Prod.fst)) ∧
    List.Sorted addrLE (sortAddrs (api9a.accounts.map Prod.fst)) ∧
    (sortAddrs (api9a.accounts.map Prod.fst)).Perm
      (api9a.accounts.map Prod.fst) ∧
    Accounts api9a = Accounts api9b :=
  C9_accounts_sorted api9a api9b (by decide)

/-- C10: a balance query failing with the account-not-found backend error
yields a zero balance with no error from `eth_getBalance`; any other backend
failure of the balance query is returned as an error with no balance. -/
theorem C10_balance_notfound_zero (api : EthAPI) (addr : Address) (bn : Int) :
    (api.backend.getBalance addr LatestBlockNumber
        = Except.error Err.accNotFound →
      GetBalance api addr bn = (some 0, none)) ∧
    (∀ e : Err, e ≠ Err.accNotFound →
      api.backend.getBalance addr LatestBlockNumber = Except.error e →
      GetBalance api addr bn = (none, some e)) := by
  constructor
  · intro h
    simp [GetBalance, h]
  · intro e he h
    simp [GetBalance, h, he]

/-- Witness for `C10_balance_notfound_zero` at an account-not-found backend
and at a generically failing backend. -/
theorem C10_balance_notfound_zero_witness :
    GetBalance apiBalNF addrA 0 = (some 0, none) ∧
    GetBalance apiBalErr addrA 0 = (none, some (Err.other "db down")) :=
  ⟨(C10_balance_notfound_zero apiBalNF addrA 0).1 rfl,
   (C10_balance_notfound_zero apiBalErr addrA 0).2 (Err.other "db down")
     (by decide) rfl⟩

end EthApi
